import Mathlib

/-!
Verification of the localnw-audiostream signalling core.

The development shallowly embeds the two source files that carry the
protocol logic:

* `signalling_server.py` — a broadcast-relay WebSocket server keeping a
  global `clients` set; its per-connection handler `signaling_server`
  adds the connection, relays every inbound message to every other
  client, and removes the connection in a `finally` clause.
* `gstreamer_server_.py` — the `WebRTCClient` producer client: its
  `_handle_message` dispatcher, the `connection` property, `send`,
  `stop`, and the `_on_send_ice` signal handler.

Connections are modelled as natural-number handles; inbound WebSocket
messages on the server side are opaque strings (the server never parses
them); the client side works on a small JSON value type.
-/

namespace AudioStream

/-! ## Server side: `signalling_server.py` -/

/-- Whether a connection handle can still be delivered to.  In the real
system this is whether the remote endpoint of the WebSocket is still
open; `client.send` on a closed connection raises. -/
def Connected := Nat → Bool

/-- Embedding of the relay loop body of `signaling_server`
(`for client in clients: if client != websocket: await client.send(message)`).
The result is the list of `(recipient, payload)` deliveries performed, in
iteration order.  `Except.error ds` means `client.send` raised on a stale
connection after the deliveries `ds` had already been made — the
exception is NOT caught by the source, so it aborts the loop. -/
def relayLoop (connected : Connected) (sender : Nat) (message : String) :
    List Nat → Except (List (Nat × String)) (List (Nat × String))
  | [] => .ok []
  | c :: rest =>
    if c = sender then relayLoop connected sender message rest
    else if connected c then
      match relayLoop connected sender message rest with
      | .ok ds => .ok ((c, message) :: ds)
      | .error ds => .error ((c, message) :: ds)
    else .error []

/-- Result of the server handling one inbound message: the new `clients`
registry, the deliveries made, and whether the handler task terminated
(an uncaught exception escaped the `async for` loop). -/
structure InboundResult where
  clients : List Nat
  deliveries : List (Nat × String)
  terminated : Bool
  deriving DecidableEq, Repr

/-- Embedding of one iteration of the `async for message in websocket`
body of `signaling_server`, together with the `finally: clients.remove(websocket)`
clause that runs when an exception escapes the loop.  On a send failure
the exception propagates: the handler ends and the SENDER (not the stale
peer) is removed from `clients`. -/
def handleInbound (connected : Connected) (clients : List Nat) (sender : Nat)
    (message : String) : InboundResult :=
  match relayLoop connected sender message clients with
  | .ok ds => ⟨clients, ds, false⟩
  | .error ds => ⟨clients.erase sender, ds, true⟩

/-- Embedding of the entry of `signaling_server`: `clients.add(websocket)`
(a Python set add: no-op when already present).  The second component is
the list of messages sent to the connecting peer — the handler sends
nothing at connection time. -/
def serverOnConnect (clients : List Nat) (c : Nat) : List Nat × List (Nat × String) :=
  (if c ∈ clients then clients else c :: clients, [])

/-! ### Connect/disconnect event system (claim C3)

A connection is live from handler entry to handler termination; the
handler does `clients.add(websocket)` on entry and
`clients.remove(websocket)` in `finally` on every exit path.  `live` is
the ghost set of currently live connections. -/

/-- Lifecycle events of connection handlers. -/
inductive Event where
  | connect (c : Nat)
  | disconnect (c : Nat)
  deriving DecidableEq, Repr

/-- Server state: the `clients` registry and the ghost list of live
connections. -/
structure SrvState where
  clients : List Nat
  live : List Nat
  deriving DecidableEq, Repr

/-- Initial server state: empty `clients` set, no live connections. -/
def initSrv : SrvState := ⟨[], []⟩

/-- Effect of a lifecycle event: handler entry runs `clients.add`,
handler termination runs `clients.remove` (the `finally` clause). -/
def stepEvent (st : SrvState) : Event → SrvState
  | .connect c =>
      ⟨if c ∈ st.clients then st.clients else c :: st.clients, c :: st.live⟩
  | .disconnect c => ⟨st.clients.erase c, st.live.erase c⟩

/-- A trace is valid when each connect introduces a fresh handle (the
WebSocket library hands each handler a distinct connection object) and
each disconnect ends a live handler. -/
def validFrom (st : SrvState) : List Event → Prop
  | [] => True
  | e :: es =>
      (match e with
       | .connect c => c ∉ st.live
       | .disconnect c => c ∈ st.live) ∧ validFrom (stepEvent st e) es

/-- Run a list of events from a state. -/
def runEvents (st : SrvState) : List Event → SrvState
  | [] => st
  | e :: es => runEvents (stepEvent st e) es

/-- Number of times a delivery occurs in a delivery list. -/
def deliveryCount (ds : List (Nat × String)) (d : Nat × String) : Nat :=
  (ds.filter (fun x => x = d)).length

/-! ## Client side: `gstreamer_server_.py` (`WebRTCClient`) -/

/-- JSON values as produced by `json.loads` and consumed by `json.dumps`. -/
inductive Json where
  | null
  | bool (b : Bool)
  | num (n : Int)
  | str (s : String)
  | arr (elems : List Json)
  | obj (fields : List (String × Json))
  deriving Repr

/-- First binding of a key in a JSON object field list. -/
def lookupField : List (String × Json) → String → Option Json
  | [], _ => none
  | (k, v) :: rest, key => if k = key then some v else lookupField rest key

/-- Python exceptions that the embedded client code can raise. -/
inductive PyError where
  | jsonDecodeError
  | keyError (key : String)
  | typeError
  | attributeError
  | assertionError
  | noConnectionError
  deriving DecidableEq, Repr

/-- Python `msg.get(key)` on a parsed JSON value: `None` when the key is
absent; AttributeError when the value is not a dict. -/
def pyGet : Json → String → Except PyError (Option Json)
  | .obj fs, key => .ok (lookupField fs key)
  | _, _ => .error .attributeError

/-- Python `msg[key]` subscription: KeyError when the key is absent,
TypeError when the value is not a dict. -/
def pyIndex : Json → String → Except PyError Json
  | .obj fs, key =>
    match lookupField fs key with
    | some v => .ok v
    | none => .error (.keyError key)
  | _, _ => .error .typeError

/-- Python membership test `key in msg` (the source only applies it to
dicts). -/
def hasField : Json → String → Bool
  | .obj fs, key => (lookupField fs key).isSome
  | _, _ => false

/-- Python truthiness of a JSON value, as used by `if msg["offer"]:`. -/
def Json.truthy : Json → Bool
  | .null => false
  | .bool b => b
  | .num n => n != 0
  | .str s => s != ""
  | .arr elems => !elems.isEmpty
  | .obj fields => !fields.isEmpty

/-- Observable actions of the `WebRTCClient` code: messages sent (or
scheduled via `send_soon`) to the signalling server, log prints, signals
emitted towards the GStreamer signaller object, and teardown steps. -/
inductive ClientEffect where
  | sent (msg : Json)
  | logged (line : String)
  | loggedPeerId (peerId : Json)
  | emitSessionRequested (sessionId peerId : Json) (offer : Option Json)
  | emitSessionEnded (sessionId : Json)
  | emitSessionDescription (sessionId sdp : Json)
  | emitHandleIce (sessionId mLineIndex candidate : Json)
  | emitError (details : Json)
  | closedConnection
  | stoppedPipeline
  deriving Repr

/-- Mutable state of a `WebRTCClient` relevant to the claims:
`_connection` (connection handles are opaque naturals) and `peer_id`
(unset until a welcome is handled). -/
structure ClientState where
  conn : Option Nat
  peerId : Option Json
  deriving Repr

namespace WebRTCClient

/-- Embedding of the `WebRTCClient.connection` property getter: raises
NoConnectionError when `_connection` is `None`, otherwise returns the
connection. -/
def connection (st : ClientState) : Except PyError Nat :=
  match st.conn with
  | none => .error .noConnectionError
  | some c => .ok c

/-- Embedding of `WebRTCClient.send`: serialises the message and sends it
over `self.connection`; evaluating the property raises NoConnectionError
when disconnected, so the message is never silently dropped. -/
def send (st : ClientState) (msg : Json) : Except PyError (List ClientEffect) :=
  match connection st with
  | .error e => .error e
  | .ok _ => .ok [.sent msg]

/-- Embedding of `WebRTCClient.stop`: the guard `if self.connection:`
evaluates the property getter, which raises NoConnectionError when
`_connection` is `None`; otherwise the connection is closed and the
attribute cleared. -/
def stop (st : ClientState) : Except PyError (ClientState × List ClientEffect) :=
  match connection st with
  | .error e => .error e
  | .ok _ => .ok ({ st with conn := none }, [.closedConnection])

/-- The setPeerStatus reply built in the welcome branch of
`_handle_message`; `meta` is the value returned by the request-meta
signal (`emit_request_meta`). -/
def setPeerStatusMsg (meta : Json) : Json :=
  .obj [("type", .str "setPeerStatus"),
        ("roles", .arr [.str "producer"]),
        ("meta", meta)]

/-- Embedding of `WebRTCClient._handle_message`.  The argument `parsed`
is the result of `json.loads` on the inbound frame — `none` when parsing
raised JSONDecodeError, which the except clause logs and re-raises.
`meta` is the request-meta signal result.  Python evaluation order of
subscriptions is preserved; the Python `match` on `msg.get("type")`
against string literals is a sequential equality test. -/
def handle_message (meta : Json) (st : ClientState) (parsed : Option Json) :
    Except PyError (ClientState × List ClientEffect) :=
  match parsed with
  | none => .error .jsonDecodeError
  | some msg => do
    let ty ← pyGet msg "type"
    match ty with
    | some (.str t) =>
      if t = "welcome" then do
        let pid ← pyIndex msg "peerId"
        let _ ← connection st
        .ok ({ st with peerId := some pid },
             [.loggedPeerId pid, .sent (setPeerStatusMsg meta)])
      else if t = "sessionStarted" then
        .ok (st, [])
      else if t = "startSession" then do
        let offerJ ← pyIndex msg "offer"
        let sid ← pyIndex msg "sessionId"
        let pid ← pyIndex msg "peerId"
        .ok (st, [.emitSessionRequested sid pid
                    (if offerJ.truthy then some offerJ else none)])
      else if t = "endSession" then do
        let sid ← pyIndex msg "sessionId"
        .ok (st, [.emitSessionEnded sid])
      else if t = "peer" then
        if hasField msg "sdp" then do
          let sdp ← pyIndex msg "sdp"
          let sdpType ← pyIndex sdp "type"
          match sdpType with
          | .str "answer" => do
            let sid ← pyIndex msg "sessionId"
            let sdpText ← pyIndex sdp "sdp"
            .ok (st, [.emitSessionDescription sid sdpText])
          | _ => .error .assertionError
        else if hasField msg "ice" then do
          let ice ← pyIndex msg "ice"
          let sid ← pyIndex msg "sessionId"
          let ml ← pyIndex ice "sdpMLineIndex"
          let cand ← pyIndex ice "candidate"
          .ok (st, [.emitHandleIce sid ml cand])
        else
          .ok (st, [.logged "unknown peer message"])
      else if t = "error" then do
        let details ← pyIndex msg "details"
        .ok (st, [.emitError details])
      else
        .ok (st, [.logged "unknown message type"])
    | _ => .ok (st, [.logged "unknown message type"])

/-- Embedding of one turn of the read loop in `WebRTCClient.connect`
(`async for message in self.connection: await self._handle_message(message)`)
together with its `finally` clause: when `_handle_message` raises, the
exception escapes the loop, the `finally` clause clears the connection
and stops the pipeline, and the read loop ends (third component `true`). -/
def connect_step (meta : Json) (st : ClientState) (parsed : Option Json) :
    ClientState × List ClientEffect × Bool :=
  match handle_message meta st parsed with
  | .ok (st2, effs) => (st2, effs, false)
  | .error _ => ({ st with conn := none }, [.stoppedPipeline], true)

/-- Embedding of the `_on_send_ice` signal handler body: the envelope it
builds from the signal arguments `(session_id, candidate,
sdp_m_line_index)`; `sdp_mid` is not used by the body. -/
def on_send_ice_msg (session_id candidate : String) (sdp_m_line_index : Int) : Json :=
  .obj [("type", .str "peer"),
        ("sessionId", .str session_id),
        ("ice", .obj [("candidate", .str candidate),
                      ("sdpMLineIndex", .num sdp_m_line_index)])]

/-- Embedding of `_on_send_ice` as a whole: on every send-ice signal it
unconditionally schedules (via `send_soon`) exactly one send of the built
envelope, touching no client state and consulting no negotiation state. -/
def on_send_ice (st : ClientState) (session_id candidate : String)
    (sdp_m_line_index : Int) (_sdp_mid : Option String) :
    ClientState × List ClientEffect :=
  (st, [.sent (on_send_ice_msg session_id candidate sdp_m_line_index)])

end WebRTCClient

/-- Modelled from the spec (message catalogue, section 6): the claimed
shape of an outbound ICE envelope, written independently of the source. -/
def specIceEnvelope (sessionId candidate : String) (sdpMLineIndex : Int) : Json :=
  .obj [("type", .str "peer"),
        ("sessionId", .str sessionId),
        ("ice", .obj [("candidate", .str candidate),
                      ("sdpMLineIndex", .num sdpMLineIndex)])]

/-- Projection of a relay result to the deliveries it performed, whether
or not the loop was aborted by an exception. -/
def exDeliveries : Except (List (Nat × String)) (List (Nat × String)) →
    List (Nat × String)
  | .ok ds => ds
  | .error ds => ds

/-- A concrete startSession request, as raw text on the wire (the relay
server never parses message contents). -/
def startSessionS1 : String :=
  "\x7b\"type\":\"startSession\",\"sessionId\":\"s1\",\"peerId\":\"2\",\"offer\":\"v=0\"\x7d"

/-! ## Theorems for claim C1 -/

theorem deliveryCount_eq_one_of_nodup_mem {ds : List (Nat × String)}
    {d : Nat × String} (hnd : ds.Nodup) (hmem : d ∈ ds) :
    deliveryCount ds d = 1 := by
  induction ds with
  | nil => cases hmem
  | cons b l ih =>
      obtain ⟨hbl, hl⟩ := List.nodup_cons.mp hnd
      rcases List.mem_cons.mp hmem with hdb | hdl
      · subst hdb
        have hnone : l.filter (fun x => x = d) = [] := by
          rw [List.filter_eq_nil_iff]
          intro x hx
          simp only [decide_eq_true_eq]
          rintro rfl
          exact hbl hx
        simp [deliveryCount, List.filter_cons, hnone]
      · have hbd : ¬ (b = d) := by
          rintro rfl
          exact hbl hdl
        simpa [deliveryCount, List.filter_cons, hbd] using ih hl hdl

theorem relayLoop_ok_of_all_connected (connected : Connected) (sender : Nat)
    (message : String) :
    ∀ clients : List Nat, (∀ c ∈ clients, connected c = true) →
      relayLoop connected sender message clients =
        .ok ((clients.filter (· ≠ sender)).map (fun c => (c, message))) := by
  intro clients hconn
  induction clients with
  | nil => rfl
  | cons c rest ih =>
      have hc : connected c = true := hconn c (List.mem_cons_self c rest)
      have hrest : ∀ x ∈ rest, connected x = true :=
        fun x hx => hconn x (List.mem_cons_of_mem c hx)
      by_cases hcs : c = sender
      · simp [relayLoop, hcs, ih hrest, List.filter_cons]
      · simp [relayLoop, hcs, hc, ih hrest, List.filter_cons]

/-- C1: in broadcast-relay mode, with every peer in the registry still
connected, handling a message from `sender` delivers the raw message
verbatim exactly once to every other registered peer, delivers nothing
to the sender, and delivers only to registered peers. -/
theorem broadcast_exactly_once (connected : Connected) (clients : List Nat)
    (sender : Nat) (message : String)
    (hnd : clients.Nodup) (hconn : ∀ c ∈ clients, connected c = true) :
    (∀ c ∈ clients, c ≠ sender →
        deliveryCount (handleInbound connected clients sender message).deliveries
          (c, message) = 1) ∧
    (∀ d ∈ (handleInbound connected clients sender message).deliveries,
        d.1 ≠ sender ∧ d.2 = message ∧ d.1 ∈ clients) := by
  have h := relayLoop_ok_of_all_connected connected sender message clients hconn
  have hinj : Function.Injective (fun c : Nat => (c, message)) := by
    intro a b hab
    simpa using congrArg Prod.fst hab
  constructor
  · intro c hc hcs
    simp only [handleInbound, h]
    have hcfil : c ∈ clients.filter (· ≠ sender) := by
      rw [List.mem_filter]
      exact ⟨hc, by simpa using hcs⟩
    exact deliveryCount_eq_one_of_nodup_mem
      (List.Nodup.map hinj (List.Nodup.filter _ hnd))
      (List.mem_map.mpr ⟨c, hcfil, rfl⟩)
  · intro d hd
    simp only [handleInbound, h] at hd
    obtain ⟨c, hcf, rfl⟩ := List.mem_map.mp hd
    obtain ⟨hcmem, hcne⟩ := List.mem_filter.mp hcf
    exact ⟨by simpa using hcne, rfl, hcmem⟩

theorem broadcast_exactly_once_witness :
    deliveryCount
        (handleInbound (fun _ => true) [1, 2, 3] 1 "offer").deliveries
        (2, "offer") = 1 ∧
    ∀ d ∈ (handleInbound (fun _ => true) [1, 2, 3] 1 "offer").deliveries,
      d.1 ≠ 1 ∧ d.2 = "offer" ∧ d.1 ∈ [1, 2, 3] :=
  ⟨(broadcast_exactly_once (fun _ => true) [1, 2, 3] 1 "offer" (by decide)
      (fun _ _ => rfl)).1 2 (by decide) (by decide),
   (broadcast_exactly_once (fun _ => true) [1, 2, 3] 1 "offer" (by decide)
      (fun _ _ => rfl)).2⟩

/-! ## Theorems for claim C2 -/

theorem relayLoop_error_of_stale (connected : Connected) (sender : Nat)
    (message : String) :
    ∀ clients : List Nat,
      (∃ c ∈ clients, c ≠ sender ∧ connected c = false) →
        ∃ ds, relayLoop connected sender message clients = .error ds := by
  intro clients hstale
  induction clients with
  | nil => obtain ⟨c, hc, _⟩ := hstale; cases hc
  | cons b rest ih =>
      obtain ⟨c, hc, hcs, hdead⟩ := hstale
      by_cases hbs : b = sender
      · have hcr : c ∈ rest := by
          rcases List.mem_cons.mp hc with rfl | h
          · exact absurd hbs hcs
          · exact h
        obtain ⟨ds, hds⟩ := ih ⟨c, hcr, hcs, hdead⟩
        exact ⟨ds, by simp [relayLoop, hbs, hds]⟩
      · cases hbconn : connected b with
        | false => exact ⟨[], by simp [relayLoop, hbs, hbconn]⟩
        | true =>
            have hcr : c ∈ rest := by
              rcases List.mem_cons.mp hc with rfl | h
              · rw [hbconn] at hdead; cases hdead
              · exact h
            obtain ⟨ds, hds⟩ := ih ⟨c, hcr, hcs, hdead⟩
            exact ⟨(b, message) :: ds, by simp [relayLoop, hbs, hbconn, hds]⟩

/-- C2 counterexample: registry is the iteration order `[1, 2, 3]`, peer 1
sends a message while peer 2 has gone stale.  The send exception
escalates out of the handler (`terminated = true`), the stale peer 2 is
NOT removed from the registry, the sender 1 is removed instead, and
delivery does not proceed to the remaining peer 3 (no deliveries at
all) — contradicting every part of the claim. -/
theorem stale_delivery_counterexample :
    (handleInbound (fun c => c != 2) [1, 2, 3] 1 "sdp").terminated = true ∧
    2 ∈ (handleInbound (fun c => c != 2) [1, 2, 3] 1 "sdp").clients ∧
    1 ∉ (handleInbound (fun c => c != 2) [1, 2, 3] 1 "sdp").clients ∧
    (handleInbound (fun c => c != 2) [1, 2, 3] 1 "sdp").deliveries = [] := by
  decide

/-- C2 (amended): a delivery failure IS escalated: the uncaught send
exception terminates the sender's handler, whose `finally` clause then
removes the SENDER from the registry; every stale peer stays registered
(each is only removed later by its own handler). -/
theorem stale_delivery_escalates (connected : Connected) (clients : List Nat)
    (sender : Nat) (message : String)
    (hstale : ∃ c ∈ clients, c ≠ sender ∧ connected c = false) :
    (handleInbound connected clients sender message).terminated = true ∧
    (handleInbound connected clients sender message).clients =
      clients.erase sender ∧
    ∀ c ∈ clients, c ≠ sender →
      c ∈ (handleInbound connected clients sender message).clients := by
  obtain ⟨ds, hds⟩ := relayLoop_error_of_stale connected sender message clients hstale
  refine ⟨by simp [handleInbound, hds], by simp [handleInbound, hds], ?_⟩
  intro c hc hcs
  simp only [handleInbound, hds]
  exact (List.mem_erase_of_ne hcs).mpr hc

theorem stale_delivery_escalates_witness :
    (handleInbound (fun c => c != 4) [1, 4, 5] 1 "m").terminated = true ∧
    (handleInbound (fun c => c != 4) [1, 4, 5] 1 "m").clients =
      [1, 4, 5].erase 1 ∧
    ∀ c ∈ [1, 4, 5], c ≠ 1 →
      c ∈ (handleInbound (fun c => c != 4) [1, 4, 5] 1 "m").clients :=
  stale_delivery_escalates (fun c => c != 4) [1, 4, 5] 1 "m"
    ⟨4, by decide, by decide, by decide⟩

/-! ## Theorems for claim C3 -/

theorem runEvents_clients_eq_live (es : List Event) :
    ∀ st : SrvState, st.clients = st.live → validFrom st es →
      (runEvents st es).clients = (runEvents st es).live := by
  induction es with
  | nil => intro st h _; exact h
  | cons e es ih =>
      intro st h hv
      simp only [validFrom] at hv
      obtain ⟨hok, hrest⟩ := hv
      refine ih (stepEvent st e) ?_ hrest
      cases e with
      | connect c =>
          have hlv : c ∉ st.live := hok
          have hnc : c ∉ st.clients := by rw [h]; exact hlv
          simp [stepEvent, hnc, h, hlv]
      | disconnect c => simp [stepEvent, h]

/-- C3: for any valid interleaving of connect and disconnect events
(each handler adds its connection on entry and the `finally` clause
removes it exactly once on every exit path), the `clients` registry is
exactly the set of live connections, so its size equals the number of
live connections after every event. -/
theorem registry_size_matches_live (es : List Event) (hv : validFrom initSrv es) :
    (runEvents initSrv es).clients = (runEvents initSrv es).live ∧
    (runEvents initSrv es).clients.length =
      (runEvents initSrv es).live.length := by
  have h := runEvents_clients_eq_live es initSrv rfl hv
  exact ⟨h, by rw [h]⟩

theorem registry_size_matches_live_witness :
    (runEvents initSrv
        [.connect 1, .connect 2, .disconnect 1, .connect 3]).clients =
      (runEvents initSrv
        [.connect 1, .connect 2, .disconnect 1, .connect 3]).live ∧
    (runEvents initSrv
        [.connect 1, .connect 2, .disconnect 1, .connect 3]).clients.length =
      (runEvents initSrv
        [.connect 1, .connect 2, .disconnect 1, .connect 3]).live.length :=
  registry_size_matches_live [.connect 1, .connect 2, .disconnect 1, .connect 3]
    ⟨by decide, by decide, by decide, by decide, trivial⟩

/-! ## Theorems for claim C4 -/

/-- C4 counterexample: a malformed frame (JSON parse failure) is not
reported back to the peer as an error envelope: `_handle_message`
re-raises the JSONDecodeError, the exception propagates past the dispatch
entry point, and the connect loop's finally clause clears the connection
and stops the pipeline — the connection does not stay open.  Likewise a
peer envelope whose sdp type is "offer" (an unrecognized shape for this
client) raises AssertionError out of the dispatcher. -/
theorem malformed_envelope_counterexample :
    WebRTCClient.handle_message Json.null ⟨some 0, none⟩ none =
      .error .jsonDecodeError ∧
    WebRTCClient.connect_step Json.null ⟨some 0, none⟩ none =
      (⟨none, none⟩, [.stoppedPipeline], true) ∧
    WebRTCClient.handle_message Json.null ⟨some 0, none⟩
        (some (.obj [("type", .str "peer"),
                     ("sessionId", .str "s1"),
                     ("sdp", .obj [("type", .str "offer"),
                                   ("sdp", .str "v=0")])])) =
      .error .assertionError :=
  ⟨rfl, rfl, rfl⟩

/-- C4 (amended): dispatch errors are NOT converted to protocol
responses: a malformed frame makes `_handle_message` raise (the
JSONDecodeError is re-raised), and every exception the dispatcher raises
propagates past the dispatch boundary, producing no envelope for the
peer; the read loop then ends and its finally clause clears the
connection and stops the pipeline, so the connection does not stay
open. -/
theorem malformed_envelope_raises (meta : Json) (st : ClientState)
    (parsed : Option Json) (e : PyError)
    (h : WebRTCClient.handle_message meta st parsed = .error e) :
    WebRTCClient.handle_message meta st none = .error .jsonDecodeError ∧
    WebRTCClient.connect_step meta st parsed =
      ({ st with conn := none }, [.stoppedPipeline], true) :=
  ⟨rfl, by simp [WebRTCClient.connect_step, h]⟩

theorem malformed_envelope_raises_witness :
    WebRTCClient.handle_message Json.null ⟨some 1, none⟩ none =
      .error .jsonDecodeError ∧
    WebRTCClient.connect_step Json.null ⟨some 1, none⟩ none =
      (⟨none, none⟩, [.stoppedPipeline], true) :=
  malformed_envelope_raises Json.null ⟨some 1, none⟩ none .jsonDecodeError rfl

/-! ## Theorems for claim C5 -/

/-- C5 counterexample: when peer 7 connects — to an empty server or to a
server with peer 5 already registered — the handler sends it nothing at
all: no welcome envelope and no assigned peer id. -/
theorem no_welcome_on_connect_counterexample :
    (serverOnConnect [] 7).2 = [] ∧ (serverOnConnect [5] 7).2 = [] :=
  ⟨rfl, rfl⟩

theorem exDeliveries_verbatim (connected : Connected) (sender : Nat)
    (message : String) :
    ∀ clients : List Nat,
      ∀ d ∈ exDeliveries (relayLoop connected sender message clients),
        d.2 = message := by
  intro clients
  induction clients with
  | nil => intro d hd; cases hd
  | cons b rest ih =>
      intro d hd
      by_cases hbs : b = sender
      · refine ih d ?_
        simpa [relayLoop, hbs] using hd
      · cases hbc : connected b with
        | false => simp [relayLoop, hbs, hbc, exDeliveries] at hd
        | true =>
            have hcons : exDeliveries (relayLoop connected sender message (b :: rest)) =
                (b, message) ::
                  exDeliveries (relayLoop connected sender message rest) := by
              simp only [relayLoop, if_neg hbs, hbc, if_true]
              cases relayLoop connected sender message rest <;> rfl
            rw [hcons] at hd
            rcases List.mem_cons.mp hd with rfl | h
            · rfl
            · exact ih d h

theorem handleInbound_deliveries (connected : Connected) (clients : List Nat)
    (sender : Nat) (message : String) :
    (handleInbound connected clients sender message).deliveries =
      exDeliveries (relayLoop connected sender message clients) := by
  unfold handleInbound exDeliveries
  cases relayLoop connected sender message clients <;> rfl

/-- C5 (amended): the server never sends a welcome envelope and assigns
no peer id: a connecting peer receives nothing at connection time, and
every message the server ever delivers to any peer is a verbatim copy of
some peer's inbound message — the server fabricates no envelope of its
own. -/
theorem server_sends_no_welcome (clients : List Nat) (c sender : Nat)
    (connected : Connected) (message : String) :
    (serverOnConnect clients c).2 = [] ∧
    ∀ d ∈ (handleInbound connected clients sender message).deliveries,
      d.2 = message := by
  refine ⟨rfl, ?_⟩
  rw [handleInbound_deliveries]
  exact exDeliveries_verbatim connected sender message clients

/-! ## Theorems for claim C6 -/

/-- C6 counterexample: with peers 1 and 2 registered, peer 1 sends the
same startSession request for session "s1" twice.  The second request is
not rejected: there is no DuplicateSessionError (the server has no
session state and no error machinery at all), no reply goes back to the
sender, the raw request is relayed to peer 2 exactly as the first one
was, and the registry is untouched. -/
theorem duplicate_startSession_counterexample :
    handleInbound (fun _ => true) [1, 2] 1 startSessionS1 =
      ⟨[1, 2], [(2, startSessionS1)], false⟩ ∧
    handleInbound (fun _ => true)
        (handleInbound (fun _ => true) [1, 2] 1 startSessionS1).clients
        1 startSessionS1 =
      ⟨[1, 2], [(2, startSessionS1)], false⟩ :=
  ⟨rfl, rfl⟩

/-- C6 (amended): the relay server maintains no session state — its
entire state is the client set — and never rejects a request: after any
earlier request, a repeated startSession (like every message) is relayed
verbatim to exactly the other connected peers, no failure occurs, no
reply goes to the sender, and the registry is unchanged. -/
theorem duplicate_startSession_relayed (connected : Connected)
    (clients : List Nat) (sender : Nat) (m1 m2 : String)
    (hconn : ∀ c ∈ clients, connected c = true) :
    handleInbound connected
        (handleInbound connected clients sender m1).clients sender m2 =
      ⟨clients, (clients.filter (· ≠ sender)).map (fun c => (c, m2)), false⟩ := by
  have h1 := relayLoop_ok_of_all_connected connected sender m1 clients hconn
  have hcl : (handleInbound connected clients sender m1).clients = clients := by
    simp [handleInbound, h1]
  rw [hcl]
  have h2 := relayLoop_ok_of_all_connected connected sender m2 clients hconn
  simp [handleInbound, h2]

theorem duplicate_startSession_relayed_witness :
    handleInbound (fun _ => true)
        (handleInbound (fun _ => true) [1, 2] 1 startSessionS1).clients
        1 startSessionS1 =
      ⟨[1, 2],
       ([1, 2].filter (· ≠ 1)).map (fun c => (c, startSessionS1)), false⟩ :=
  duplicate_startSession_relayed (fun _ => true) [1, 2] 1
    startSessionS1 startSessionS1 (fun _ _ => rfl)

/-! ## Theorems for claim C7 -/

/-- C7: an inbound envelope whose type field is not one of the
recognized values (welcome, sessionStarted, startSession, endSession,
peer, error) is logged and ignored: the dispatcher returns normally — no
exception, no error envelope, no signal, nothing sent — and the client
state is unchanged. -/
theorem unknown_type_ignored (meta : Json) (st : ClientState)
    (fs : List (String × Json)) (t : String)
    (hty : lookupField fs "type" = some (.str t))
    (hunk : t ∉ ["welcome", "sessionStarted", "startSession", "endSession",
                 "peer", "error"]) :
    WebRTCClient.handle_message meta st (some (.obj fs)) =
      .ok (st, [.logged "unknown message type"]) := by
  have h1 : t ≠ "welcome" := fun h => hunk (by simp [h])
  have h2 : t ≠ "sessionStarted" := fun h => hunk (by simp [h])
  have h3 : t ≠ "startSession" := fun h => hunk (by simp [h])
  have h4 : t ≠ "endSession" := fun h => hunk (by simp [h])
  have h5 : t ≠ "peer" := fun h => hunk (by simp [h])
  have h6 : t ≠ "error" := fun h => hunk (by simp [h])
  simp [WebRTCClient.handle_message, pyGet, hty, h1, h2, h3, h4, h5, h6,
    bind, Except.bind]

theorem unknown_type_ignored_witness :
    WebRTCClient.handle_message Json.null ⟨none, none⟩
        (some (.obj [("type", .str "bogus")])) =
      .ok (⟨none, none⟩, [.logged "unknown message type"]) :=
  unknown_type_ignored Json.null ⟨none, none⟩ [("type", .str "bogus")]
    "bogus" rfl (by simp)

/-! ## Theorems for claim C8 -/

/-- C8: every send-ice signal from the media adapter makes the client
immediately schedule exactly one send of exactly the spec-catalogue
envelope shape built from session id, candidate and sdpMLineIndex, for
every client state alike: no negotiation state is consulted, the
candidate is not buffered, and the state is untouched. -/
theorem ice_forwarded_immediately (st : ClientState)
    (session_id candidate : String) (sdp_m_line_index : Int)
    (sdp_mid : Option String) :
    WebRTCClient.on_send_ice st session_id candidate sdp_m_line_index sdp_mid =
      (st, [.sent (specIceEnvelope session_id candidate sdp_m_line_index)]) :=
  rfl

/-! ## Theorems for claim C9 -/

/-- C9: when `_connection` is absent the connection property raises
NoConnectionError; consequently `send` raises NoConnectionError rather
than silently dropping the message, and `stop` — whose guard
`if self.connection` evaluates that very property — also raises
NoConnectionError instead of being a no-op. -/
theorem no_connection_raises (st : ClientState) (msg : Json)
    (h : st.conn = none) :
    WebRTCClient.connection st = .error .noConnectionError ∧
    WebRTCClient.send st msg = .error .noConnectionError ∧
    WebRTCClient.stop st = .error .noConnectionError := by
  have hc : WebRTCClient.connection st = .error .noConnectionError := by
    simp [WebRTCClient.connection, h]
  exact ⟨hc, by simp [WebRTCClient.send, hc], by simp [WebRTCClient.stop, hc]⟩

theorem no_connection_raises_witness :
    WebRTCClient.connection ⟨none, none⟩ = .error .noConnectionError ∧
    WebRTCClient.send ⟨none, none⟩ Json.null = .error .noConnectionError ∧
    WebRTCClient.stop ⟨none, none⟩ = .error .noConnectionError :=
  no_connection_raises ⟨none, none⟩ Json.null rfl

/-! ## Theorems for claim C10 -/

/-- C10: handling a welcome envelope records the assigned peerId and
replies with exactly one setPeerStatus envelope whose roles field is
exactly ["producer"] and whose meta is the request-meta signal result;
and an envelope of any other type never produces a send at all, so no
other inbound envelope type triggers a setPeerStatus. -/
theorem welcome_triggers_setPeerStatus :
    (∀ (meta : Json) (st : ClientState) (c : Nat)
        (fs : List (String × Json)) (pid : Json),
        st.conn = some c →
        lookupField fs "type" = some (.str "welcome") →
        lookupField fs "peerId" = some pid →
        WebRTCClient.handle_message meta st (some (.obj fs)) =
          .ok ({ st with peerId := some pid },
               [.loggedPeerId pid,
                .sent (.obj [("type", .str "setPeerStatus"),
                             ("roles", .arr [.str "producer"]),
                             ("meta", meta)])])) ∧
    (∀ (meta : Json) (st : ClientState) (fs : List (String × Json))
        (st2 : ClientState) (effs : List ClientEffect),
        lookupField fs "type" ≠ some (.str "welcome") →
        WebRTCClient.handle_message meta st (some (.obj fs)) = .ok (st2, effs) →
        ∀ e ∈ effs, ∀ j : Json, e ≠ .sent j) := by
  constructor
  · intro meta st c fs pid hconn hty hpid
    simp [WebRTCClient.handle_message, pyGet, pyIndex, hty, hpid,
      WebRTCClient.connection, hconn, WebRTCClient.setPeerStatusMsg,
      bind, Except.bind]
  · intro meta st fs st2 effs hne heq e he j
    unfold WebRTCClient.handle_message at heq
    simp only [pyGet, bind, Except.bind] at heq
    repeat' split at heq
    all_goals simp_all
    all_goals
      obtain ⟨heq1, heq2⟩ := heq
    all_goals
      subst heq2
    all_goals
      rcases List.mem_singleton.mp he with rfl
    all_goals simp

theorem welcome_triggers_setPeerStatus_witness :
    WebRTCClient.handle_message (Json.str "m") ⟨some 0, none⟩
        (some (.obj [("type", .str "welcome"), ("peerId", .str "7")])) =
      .ok (⟨some 0, some (.str "7")⟩,
           [.loggedPeerId (.str "7"),
            .sent (.obj [("type", .str "setPeerStatus"),
                         ("roles", .arr [.str "producer"]),
                         ("meta", .str "m")])]) ∧
    (ClientEffect.emitSessionEnded (Json.str "s1") ≠
      ClientEffect.sent (.obj [("type", .str "setPeerStatus"),
                               ("roles", .arr [.str "producer"]),
                               ("meta", Json.null)])) :=
  ⟨welcome_triggers_setPeerStatus.1 (Json.str "m") ⟨some 0, none⟩ 0
      [("type", .str "welcome"), ("peerId", .str "7")] (.str "7") rfl rfl rfl,
   welcome_triggers_setPeerStatus.2 Json.null ⟨none, none⟩
      [("type", .str "endSession"), ("sessionId", .str "s1")] ⟨none, none⟩
      [.emitSessionEnded (.str "s1")] (by simp [lookupField]) rfl
      (.emitSessionEnded (.str "s1")) (by simp)
      (.obj [("type", .str "setPeerStatus"),
             ("roles", .arr [.str "producer"]),
             ("meta", Json.null)])⟩

end AudioStream
